import Mathlib

/-!
Shallow embedding of the content/lead CRUD and authorization boundary of the
marketing-site repository:
* `src/apps/marketing-site/src/app/api/blog/route.ts` (list/create),
* `src/apps/marketing-site/src/app/api/blog/[slug]/route.ts` (get/update/delete),
* the lead-capture `POST` handler.

The external store (a supabase table) is modelled as a `List BlogPost`; a
row-returning query ending in `.single()` yields its row only when exactly one
row matches, and a no-match outcome is modelled as empty data with no store
error.  Request bodies are modelled as well-typed JSON objects: each field is
either absent (`none`) or carries a value of the column's type; the lead body,
whose handler inspects JSON dynamically, is modelled as an association list of
JSON values.  JavaScript truthiness (`!x`, `x || y`, `x ? a : b`) is embedded
explicitly wherever the source relies on it.
-/

namespace NewSite

/-- JSON scalar values, enough to express the dynamic checks of the lead
handler (`!body.email`, `typeof body.email !== "string"`). -/
inductive JsonVal where
  | str (s : String)
  | num (n : Int)
  | bool (b : Bool)
  | null
deriving DecidableEq

/-- A JSON object: an association list of fields (keys assumed distinct, as
produced by `JSON.parse`). -/
abbrev JsonObj := List (String × JsonVal)

/-- Field lookup on a JSON object. -/
def getField (o : JsonObj) (k : String) : Option JsonVal :=
  (o.find? (fun kv => kv.1 == k)).map (fun kv => kv.2)

/-- Remove a field from a JSON object. -/
def removeField (o : JsonObj) (k : String) : JsonObj :=
  o.filter (fun kv => kv.1 != k)

/-- `setField o k v` models the object literal entry `k: v` written after
spreading `o` (the later entry wins). -/
def setField (o : JsonObj) (k : String) (v : JsonVal) : JsonObj :=
  removeField o k ++ [(k, v)]

/-- `mergeObj a b` models the object literal `\x7b ...a, ...b \x7d`: fields of `b`
override fields of `a`. -/
def mergeObj (a b : JsonObj) : JsonObj :=
  a.filter (fun kv => (getField b kv.1).isNone) ++ b

/-- JavaScript truthiness of a possibly-absent JSON value (`undefined`, `null`,
`""`, `0` and `false` are falsy). -/
def truthy : Option JsonVal → Bool
  | none => false
  | some (JsonVal.str s) => !s.isEmpty
  | some (JsonVal.num n) => n != 0
  | some (JsonVal.bool b) => b
  | some JsonVal.null => false

/-- `typeof v === "string"` on a possibly-absent JSON value. -/
def isStringVal : Option JsonVal → Bool
  | some (JsonVal.str _) => true
  | _ => false

/-- A row of the `blog_posts` table.  Timestamps and the generated `id` are
opaque strings / numbers supplied by the environment. -/
structure BlogPost where
  id : Nat
  slug : String
  title : String
  excerpt : Option String
  content : String
  cover_image_url : Option String
  author : String
  published : Bool
  published_at : Option String
  created_at : String
  updated_at : String
deriving DecidableEq

/-- An HTTP response produced by a route handler: either a JSON body with a
status, or an error object `\x7b error: message \x7d` with a status. -/
inductive ApiResponse (α : Type) where
  | ok (status : Nat) (body : α)
  | err (status : Nat) (message : String)
deriving DecidableEq

/-- `isAuthorized` from both blog route files: the `authorization` header
(`null` when absent) is compared with `===` against `process.env.ADMIN_PASSWORD`
(`undefined` when unset); in JavaScript `null === undefined` is false, so the
comparison is true only when both are present and equal. -/
def isAuthorized (auth : Option String) (password : Option String) : Bool :=
  match auth, password with
  | some a, some p => a == p
  | _, _ => false

/-- `.single()` at the end of a row-returning query: data is present only when
exactly one row matched. -/
def singleRow (rows : List BlogPost) : Option BlogPost :=
  match rows with
  | [p] => some p
  | _ => none

/-- `x || fallback` on a possibly-absent string (`undefined` and `""` are
falsy). -/
def fallbackIfFalsy (v : Option String) (fallback : String) : String :=
  match v with
  | some s => if s.isEmpty then fallback else s
  | none => fallback

/-- `x || null` on a possibly-absent string: an absent or empty string becomes
`null`. -/
def orNull (v : Option String) : Option String :=
  match v with
  | some s => if s.isEmpty then none else some s
  | none => none

/-- GET `/api/blog/[slug]`: an admin query selects by slug alone; an anonymous
query additionally requires `published = true`; `.single()` then yields at most
one row, and `error || !data` becomes a 404. -/
def blogSlugGET (store : List BlogPost) (auth password : Option String)
    (slug : String) : ApiResponse BlogPost :=
  let admin := isAuthorized auth password
  let rows :=
    if admin then store.filter (fun p => p.slug == slug)
    else store.filter (fun p => p.slug == slug && p.published)
  match singleRow rows with
  | some p => ApiResponse.ok 200 p
  | none => ApiResponse.err 404 "Post not found."

/-- Truthiness of a possibly-absent string field (`!body.title`): absent and
empty strings are falsy. -/
def truthyStr (v : Option String) : Bool :=
  match v with
  | some s => !s.isEmpty
  | none => false

/-- The JSON body of a create request, with each recognised field either absent
or carrying a value of its column type. -/
structure PostBody where
  title : Option String := none
  slug : Option String := none
  excerpt : Option String := none
  content : Option String := none
  cover_image_url : Option String := none
  author : Option String := none
  published : Option Bool := none
deriving DecidableEq

/-- POST `/api/blog`: authorization first, then body parse (`none` models an
unparseable body, handled by the `catch`), then the `!body.title || !body.slug`
validation, then the insert with the defaulting of the source
(`excerpt || null`, `content || ""`, `author || "Stalela"`,
`published || false`, `published ? now : null`).  The store generates `id`,
`created_at` and `updated_at`; they enter as the `genId` and `now` parameters.
Returns the response and the store after the request. -/
def blogPOST (store : List BlogPost) (auth password : Option String)
    (body : Option PostBody) (now : String) (genId : Nat) :
    ApiResponse BlogPost × List BlogPost :=
  if isAuthorized auth password then
    match body with
    | none => (ApiResponse.err 400 "Invalid request.", store)
    | some b =>
      if !truthyStr b.title || !truthyStr b.slug then
        (ApiResponse.err 400 "Title and slug are required.", store)
      else
        let post : BlogPost :=
          { id := genId
            slug := b.slug.getD ""
            title := b.title.getD ""
            excerpt := orNull b.excerpt
            content := b.content.getD ""
            cover_image_url := orNull b.cover_image_url
            author := fallbackIfFalsy b.author "Stalela"
            published := b.published.getD false
            published_at := if b.published.getD false then some now else none
            created_at := now
            updated_at := now }
        (ApiResponse.ok 201 post, store ++ [post])
  else (ApiResponse.err 401 "Unauthorized", store)

/-- The JSON body of an update request, with each recognised field either
absent (`undefined`, skipped by the `!== undefined` guards) or carrying a value
of its column type. -/
structure PutBody where
  title : Option String := none
  slug : Option String := none
  excerpt : Option String := none
  content : Option String := none
  cover_image_url : Option String := none
  author : Option String := none
  published : Option Bool := none
  published_at : Option String := none
deriving DecidableEq

/-- The `updates` record of PUT `/api/blog/[slug]` applied to a row: always
`updated_at = now`; every field present in the body overwrites the column; when
`published` is present and true, `published_at = body.published_at || now`. -/
def applyUpdates (p : BlogPost) (b : PutBody) (now : String) : BlogPost :=
  { id := p.id
    slug := b.slug.getD p.slug
    title := b.title.getD p.title
    excerpt := match b.excerpt with | some v => some v | none => p.excerpt
    content := b.content.getD p.content
    cover_image_url :=
      match b.cover_image_url with | some v => some v | none => p.cover_image_url
    author := b.author.getD p.author
    published := b.published.getD p.published
    published_at :=
      match b.published with
      | some pub =>
        if pub then some (fallbackIfFalsy b.published_at now) else p.published_at
      | none => p.published_at
    created_at := p.created_at
    updated_at := now }

/-- PUT `/api/blog/[slug]`: authorization first, then body parse, then the
store update of every row matching the slug followed by `.select().single()`:
exactly one updated row is returned with 200, no matching row is a 404, and
several matching rows make `.single()` fail, surfaced as a store error. -/
def blogSlugPUT (store : List BlogPost) (auth password : Option String)
    (slug : String) (body : Option PutBody) (now : String) :
    ApiResponse BlogPost × List BlogPost :=
  if isAuthorized auth password then
    match body with
    | none => (ApiResponse.err 400 "Invalid request.", store)
    | some b =>
      let rows := store.filter (fun p => p.slug == slug)
      let newStore :=
        store.map (fun p => if p.slug == slug then applyUpdates p b now else p)
      match rows with
      | [p] => (ApiResponse.ok 200 (applyUpdates p b now), newStore)
      | [] => (ApiResponse.err 404 "Post not found.", store)
      | _ => (ApiResponse.err 500 "store error: more than one row", newStore)
  else (ApiResponse.err 401 "Unauthorized", store)

/-- DELETE `/api/blog/[slug]`: authorization first, then deletion of every row
matching the slug (a no-match delete succeeds as a no-op) and a
`\x7b success: true \x7d` response. -/
def blogSlugDELETE (store : List BlogPost) (auth password : Option String)
    (slug : String) : ApiResponse Bool × List BlogPost :=
  if isAuthorized auth password then
    (ApiResponse.ok 200 true, store.filter (fun p => !(p.slug == slug)))
  else (ApiResponse.err 401 "Unauthorized", store)

/-- The lead-capture POST handler: body parse (`none` models an unparseable
body), the two dynamic field checks
(`!body.email || typeof body.email !== "string"`, likewise for `source`), then
the construction `\x7b id: crypto.randomUUID(), ...body, createdAt: now \x7d`
(note: the spread of `body` comes after the generated `id`, so a caller-supplied
`id` field overrides it), the append to the stored list of leads, and the
response `\x7b success: true, id: lead.id \x7d`.  The generated UUID enters as
the `genId` parameter. -/
def leadsPOST (body : Option JsonObj) (leads : List JsonObj)
    (genId : String) (now : String) :
    ApiResponse (Option JsonVal) × List JsonObj :=
  match body with
  | none => (ApiResponse.err 400 "Invalid request.", leads)
  | some b =>
    if !truthy (getField b "email") || !isStringVal (getField b "email") then
      (ApiResponse.err 400 "Email is required.", leads)
    else if !truthy (getField b "source") || !isStringVal (getField b "source") then
      (ApiResponse.err 400 "Source is required.", leads)
    else
      let lead := setField (mergeObj [("id", JsonVal.str genId)] b) "createdAt"
        (JsonVal.str now)
      (ApiResponse.ok 201 (getField lead "id"), leads ++ [lead])

/-! Concrete sample data used by witnesses and counterexamples. -/

/-- A stored draft post that has never been published. -/
def draftPost : BlogPost :=
  { id := 1
    slug := "hello"
    title := "Hello"
    excerpt := none
    content := "Body"
    cover_image_url := none
    author := "Stalela"
    published := false
    published_at := none
    created_at := "2024-01-01T00:00:00.000Z"
    updated_at := "2024-01-01T00:00:00.000Z" }

/-- A stored post that was published once and then unpublished, so its
`published_at` history is still set. -/
def historyPost : BlogPost :=
  { id := 2
    slug := "hello"
    title := "Hello"
    excerpt := none
    content := "Body"
    cover_image_url := none
    author := "Stalela"
    published := false
    published_at := some "2023-05-05T00:00:00.000Z"
    created_at := "2023-05-01T00:00:00.000Z"
    updated_at := "2023-05-05T00:00:00.000Z" }

/-- An update body that publishes the post and explicitly supplies the empty
string as `published_at`. -/
def publishEmptyTimestampBody : PutBody :=
  { published := some true, published_at := some "" }

/-- An update body that publishes the post and says nothing else. -/
def publishNowBody : PutBody :=
  { published := some true }

/-- The row inserted by `blogPOST` for a create body supplying only title,
slug and content. -/
def insertedPost (t s c now : String) (genId : Nat) : BlogPost :=
  { id := genId
    slug := s
    title := t
    excerpt := none
    content := c
    cover_image_url := none
    author := "Stalela"
    published := false
    published_at := none
    created_at := now
    updated_at := now }

/-- A create body supplying only title, slug and content. -/
def helloCreateBody : PostBody :=
  { title := some "Hello", slug := some "hello", content := some "Body" }

/-- A lead submission with valid `email` and `source` that also smuggles in an
`id` field. -/
def leadBodyWithId : JsonObj :=
  [("email", JsonVal.str "a@b.c"), ("source", JsonVal.str "web"),
   ("id", JsonVal.str "lead-1")]

/-- A previously stored lead whose id is the one `leadBodyWithId` reuses. -/
def priorLeads : List JsonObj :=
  [[("id", JsonVal.str "lead-1"), ("email", JsonVal.str "x@y.z"),
    ("source", JsonVal.str "web")]]

/-! Helper lemmas about the store model. -/

/-- `singleRow` yields a row exactly when the row list is that singleton. -/
theorem singleRow_eq_some_iff (rows : List BlogPost) (p : BlogPost) :
    singleRow rows = some p ↔ rows = [p] := by
  cases rows with
  | nil => simp [singleRow]
  | cons a l =>
    cases l with
    | nil => simp [singleRow]
    | cons b l2 => simp [singleRow]

/-- When the slugs of the store are distinct, filtering by a predicate that
forces a fixed slug returns exactly the one matching row. -/
theorem filter_eq_singleton_of_nodup (store : List BlogPost) (pr : BlogPost → Bool)
    (slug : String) (hpr : ∀ q, pr q = true → q.slug = slug)
    (hnd : (store.map BlogPost.slug).Nodup) (p : BlogPost) (hp : p ∈ store)
    (hpp : pr p = true) : store.filter pr = [p] := by
  induction store with
  | nil => cases hp
  | cons a l ih =>
    rw [List.map_cons, List.nodup_cons] at hnd
    rcases List.mem_cons.mp hp with rfl | hpl
    · have hfl : l.filter pr = [] := by
        refine List.filter_eq_nil_iff.mpr (fun q hq hqpr => ?_)
        exact hnd.1 (by
          rw [hpr p hpp, ← hpr q hqpr]
          exact List.mem_map_of_mem BlogPost.slug hq)
      rw [List.filter_cons_of_pos hpp, hfl]
    · have hfa : pr a = false := by
        rw [Bool.eq_false_iff]
        intro ha
        exact hnd.1 (by
          rw [hpr a ha, ← hpr p hpp]
          exact List.mem_map_of_mem BlogPost.slug hpl)
      rw [List.filter_cons_of_neg (by simp [hfa]), ih hnd.2 hpl]

/-- C1: for every request that is not authorized, GET by slug returns a post
exactly when a stored post has that slug and is published; in every other case
(draft or unknown slug alike) it returns the one not-found error. -/
theorem c1_anonymous_get_published_only (store : List BlogPost)
    (auth password : Option String) (slug : String)
    (hanon : isAuthorized auth password = false)
    (hnd : (store.map BlogPost.slug).Nodup) :
    (∀ p : BlogPost, blogSlugGET store auth password slug = ApiResponse.ok 200 p ↔
        p ∈ store ∧ p.slug = slug ∧ p.published = true) ∧
    ((¬ ∃ p ∈ store, p.slug = slug ∧ p.published = true) →
        blogSlugGET store auth password slug = ApiResponse.err 404 "Post not found.") := by
  have hget : blogSlugGET store auth password slug =
      match singleRow (store.filter (fun p => p.slug == slug && p.published)) with
      | some p => ApiResponse.ok 200 p
      | none => ApiResponse.err 404 "Post not found." := by
    simp only [blogSlugGET, hanon, Bool.false_eq_true, if_false]
  constructor
  · intro p
    constructor
    · intro h
      rw [hget] at h
      cases hs : singleRow (store.filter (fun p => p.slug == slug && p.published)) with
      | none => rw [hs] at h; cases h
      | some q =>
        rw [hs] at h
        have hqp : q = p := by
          injection h
        subst hqp
        have hq : q ∈ store.filter (fun p => p.slug == slug && p.published) := by
          rw [(singleRow_eq_some_iff _ q).mp hs]
          exact List.mem_singleton.mpr rfl
        have := List.mem_filter.mp hq
        refine ⟨this.1, ?_, ?_⟩
        · have hb := this.2
          simp only [Bool.and_eq_true, beq_iff_eq] at hb
          exact hb.1
        · have hb := this.2
          simp only [Bool.and_eq_true, beq_iff_eq] at hb
          exact hb.2
    · rintro ⟨hp, hslug, hpub⟩
      have hf : store.filter (fun q => q.slug == slug && q.published) = [p] := by
        refine filter_eq_singleton_of_nodup store _ slug (fun q hq => ?_) hnd p hp
          (by simp [hslug, hpub])
        simp only [Bool.and_eq_true, beq_iff_eq] at hq
        exact hq.1
      rw [hget, hf]
      rfl
  · intro hno
    have hf : store.filter (fun q => q.slug == slug && q.published) = [] := by
      refine List.filter_eq_nil_iff.mpr (fun q hq hqpr => ?_)
      simp only [Bool.and_eq_true, beq_iff_eq] at hqpr
      exact hno ⟨q, hq, hqpr.1, hqpr.2⟩
    rw [hget, hf]
    rfl

/-- C1 witness: with no secret configured and a store holding one draft, the
anonymous GET of the draft's slug returns the not-found error. -/
theorem c1_anonymous_get_published_only_witness :
    blogSlugGET [draftPost] none none "hello" = ApiResponse.err 404 "Post not found." :=
  (c1_anonymous_get_published_only [draftPost] none none "hello" (by decide)
    (by decide)).2 (by decide)

/-- C2: every write operation (create, update, delete) presented without the
correct authorization header answers the unauthorized error and leaves the
store exactly as it was. -/
theorem c2_unauthorized_writes_reject (store : List BlogPost)
    (auth password : Option String) (slug : String) (createBody : Option PostBody)
    (updateBody : Option PutBody) (now : String) (genId : Nat)
    (h : isAuthorized auth password = false) :
    blogPOST store auth password createBody now genId =
        (ApiResponse.err 401 "Unauthorized", store) ∧
    blogSlugPUT store auth password slug updateBody now =
        (ApiResponse.err 401 "Unauthorized", store) ∧
    blogSlugDELETE store auth password slug =
        (ApiResponse.err 401 "Unauthorized", store) := by
  refine ⟨?_, ?_, ?_⟩ <;>
    simp [blogPOST, blogSlugPUT, blogSlugDELETE, h]

/-- C2 witness: a wrong header against a configured secret is rejected on all
three write routes and the one-draft store is untouched. -/
theorem c2_unauthorized_writes_reject_witness :
    blogSlugPUT [draftPost] (some "wrong") (some "s3cret") "hello"
        (some publishNowBody) "2024-06-01T00:00:00.000Z" =
      (ApiResponse.err 401 "Unauthorized", [draftPost]) :=
  (c2_unauthorized_writes_reject [draftPost] (some "wrong") (some "s3cret") "hello"
    none (some publishNowBody) "2024-06-01T00:00:00.000Z" 0 (by decide)).2.1

/-- C10: with no configured secret, `isAuthorized` is false for every header
(absent or present), so every write operation is rejected unchanged. -/
theorem c10_no_secret_never_authorized (auth : Option String) (store : List BlogPost)
    (slug : String) (createBody : Option PostBody) (updateBody : Option PutBody)
    (now : String) (genId : Nat) :
    isAuthorized auth none = false ∧
    blogPOST store auth none createBody now genId =
        (ApiResponse.err 401 "Unauthorized", store) ∧
    blogSlugPUT store auth none slug updateBody now =
        (ApiResponse.err 401 "Unauthorized", store) ∧
    blogSlugDELETE store auth none slug =
        (ApiResponse.err 401 "Unauthorized", store) := by
  have h : isAuthorized auth none = false := by
    cases auth <;> rfl
  refine ⟨h, ?_, ?_, ?_⟩ <;>
    simp [blogPOST, blogSlugPUT, blogSlugDELETE, h]

/-- C4 counterexample: publishing with the explicit caller value
`published_at = ""` does not store that caller-provided value; the handler
falls back to the processing time, refuting the claim that the caller-provided
value is always kept. -/
theorem c4_publish_timestamp_counterexample :
    publishEmptyTimestampBody.published = some true ∧
    publishEmptyTimestampBody.published_at = some "" ∧
    (blogSlugPUT [draftPost] (some "pw") (some "pw") "hello"
        (some publishEmptyTimestampBody) "2024-06-01T00:00:00.000Z").1 =
      ApiResponse.ok 200
        (applyUpdates draftPost publishEmptyTimestampBody "2024-06-01T00:00:00.000Z") ∧
    (applyUpdates draftPost publishEmptyTimestampBody
        "2024-06-01T00:00:00.000Z").published_at = some "2024-06-01T00:00:00.000Z" ∧
    (applyUpdates draftPost publishEmptyTimestampBody
        "2024-06-01T00:00:00.000Z").published_at ≠ some "" := by
  decide

/-- C4 (amended): for an authorized update of a stored post, setting
`published = true` stores the caller-provided `published_at` when that value is
a non-empty string and the processing time when it is absent or empty; an
update without `published`, or with `published = false`, leaves `published_at`
untouched; the first transition to published sets `published_at`, and a set
`published_at` is never cleared. -/
theorem c4_publish_timestamp (store : List BlogPost) (auth password : Option String)
    (slug : String) (b : PutBody) (now : String) (p : BlogPost)
    (hauth : isAuthorized auth password = true)
    (hrow : store.filter (fun q => q.slug == slug) = [p]) :
    (blogSlugPUT store auth password slug (some b) now).1 =
        ApiResponse.ok 200 (applyUpdates p b now) ∧
    (∀ v, b.published = some true → b.published_at = some v → v ≠ "" →
        (applyUpdates p b now).published_at = some v) ∧
    (b.published = some true → (b.published_at = none ∨ b.published_at = some "") →
        (applyUpdates p b now).published_at = some now) ∧
    (b.published = none → (applyUpdates p b now).published_at = p.published_at) ∧
    (b.published = some false → (applyUpdates p b now).published_at = p.published_at) ∧
    (∀ t, p.published_at = some t → ∃ u, (applyUpdates p b now).published_at = some u) ∧
    (p.published = false → (applyUpdates p b now).published = true →
        ∃ u, (applyUpdates p b now).published_at = some u) := by
  refine ⟨by simp [blogSlugPUT, hauth, hrow], ?_, ?_, ?_, ?_, ?_, ?_⟩
  · intro v hpub hat hne
    have hv : v.isEmpty = false := by
      rw [Bool.eq_false_iff]
      intro hc
      exact hne ((String.isEmpty_iff v).mp hc)
    simp [applyUpdates, hpub, hat, fallbackIfFalsy, hv]
  · intro hpub hat
    have he : ("" : String).isEmpty = true := rfl
    rcases hat with hat | hat <;> simp [applyUpdates, hpub, hat, fallbackIfFalsy, he]
  · intro hpub
    simp [applyUpdates, hpub]
  · intro hpub
    simp [applyUpdates, hpub]
  · intro t ht
    cases hpub : b.published with
    | none => exact ⟨t, by simp [applyUpdates, hpub, ht]⟩
    | some pub =>
      cases pub with
      | false => exact ⟨t, by simp [applyUpdates, hpub, ht]⟩
      | true => exact ⟨fallbackIfFalsy b.published_at now, by simp [applyUpdates, hpub]⟩
  · intro hold hnew
    cases hpub : b.published with
    | none =>
      rw [show (applyUpdates p b now).published = p.published by
        simp [applyUpdates, hpub]] at hnew
      rw [hold] at hnew
      cases hnew
    | some pub =>
      cases pub with
      | false =>
        rw [show (applyUpdates p b now).published = false by
          simp [applyUpdates, hpub]] at hnew
        cases hnew
      | true => exact ⟨fallbackIfFalsy b.published_at now, by simp [applyUpdates, hpub]⟩

/-- C4 witness: publishing the stored draft with no `published_at` in the body
sets `published_at` to the processing time. -/
theorem c4_publish_timestamp_witness :
    (applyUpdates draftPost publishNowBody "2024-06-01T00:00:00.000Z").published_at =
      some "2024-06-01T00:00:00.000Z" :=
  (c4_publish_timestamp [draftPost] (some "pw") (some "pw") "hello" publishNowBody
    "2024-06-01T00:00:00.000Z" draftPost (by decide) (by decide)).2.2.1 rfl (Or.inl rfl)

/-- C5 counterexample: an authorized update whose body contains only
`published = true` (no `published_at` field) still changes the stored
`published_at`, refuting the claim that `updated_at` is the only field that can
change without being present in the body. -/
theorem c5_partial_update_counterexample :
    publishNowBody.published_at = none ∧
    (blogSlugPUT [historyPost] (some "pw") (some "pw") "hello" (some publishNowBody)
        "2024-06-01T00:00:00.000Z").1 =
      ApiResponse.ok 200
        (applyUpdates historyPost publishNowBody "2024-06-01T00:00:00.000Z") ∧
    (applyUpdates historyPost publishNowBody
        "2024-06-01T00:00:00.000Z").published_at = some "2024-06-01T00:00:00.000Z" ∧
    historyPost.published_at = some "2023-05-05T00:00:00.000Z" ∧
    (applyUpdates historyPost publishNowBody
        "2024-06-01T00:00:00.000Z").published_at ≠ historyPost.published_at := by
  decide

/-- C5 (amended): on an authorized update of a stored post, every field absent
from the body keeps its prior value, except that `updated_at` is always
refreshed to the processing time and that `published_at` is additionally set
when the body publishes the post even though `published_at` itself is absent;
`id` and `created_at` are never touched. -/
theorem c5_partial_update_frame (store : List BlogPost) (auth password : Option String)
    (slug : String) (b : PutBody) (now : String) (p : BlogPost)
    (hauth : isAuthorized auth password = true)
    (hrow : store.filter (fun q => q.slug == slug) = [p]) :
    (blogSlugPUT store auth password slug (some b) now).1 =
        ApiResponse.ok 200 (applyUpdates p b now) ∧
    (applyUpdates p b now).updated_at = now ∧
    (applyUpdates p b now).id = p.id ∧
    (applyUpdates p b now).created_at = p.created_at ∧
    (b.title = none → (applyUpdates p b now).title = p.title) ∧
    (b.slug = none → (applyUpdates p b now).slug = p.slug) ∧
    (b.excerpt = none → (applyUpdates p b now).excerpt = p.excerpt) ∧
    (b.content = none → (applyUpdates p b now).content = p.content) ∧
    (b.cover_image_url = none →
        (applyUpdates p b now).cover_image_url = p.cover_image_url) ∧
    (b.author = none → (applyUpdates p b now).author = p.author) ∧
    (b.published = none → (applyUpdates p b now).published = p.published) ∧
    ((b.published = none ∨ b.published = some false) →
        (applyUpdates p b now).published_at = p.published_at) := by
  refine ⟨by simp [blogSlugPUT, hauth, hrow], by simp [applyUpdates],
    by simp [applyUpdates], by simp [applyUpdates], ?_, ?_, ?_, ?_, ?_, ?_, ?_, ?_⟩
  · intro h; simp [applyUpdates, h]
  · intro h; simp [applyUpdates, h]
  · intro h; simp [applyUpdates, h]
  · intro h; simp [applyUpdates, h]
  · intro h; simp [applyUpdates, h]
  · intro h; simp [applyUpdates, h]
  · intro h; simp [applyUpdates, h]
  · intro h
    rcases h with h | h <;> simp [applyUpdates, h]

/-- C5 witness: an authorized update of the stored draft with an empty body
refreshes `updated_at` and keeps the title. -/
theorem c5_partial_update_frame_witness :
    (applyUpdates draftPost {} "2024-06-01T00:00:00.000Z").updated_at =
        "2024-06-01T00:00:00.000Z" ∧
    (applyUpdates draftPost {} "2024-06-01T00:00:00.000Z").title = draftPost.title :=
  ⟨(c5_partial_update_frame [draftPost] (some "pw") (some "pw") "hello" {}
      "2024-06-01T00:00:00.000Z" draftPost (by decide) (by decide)).2.1,
   (c5_partial_update_frame [draftPost] (some "pw") (some "pw") "hello" {}
      "2024-06-01T00:00:00.000Z" draftPost (by decide) (by decide)).2.2.2.2.1 rfl⟩

/-- C6: an authorized update whose slug matches no stored post answers the
not-found error with the store unchanged, and that response differs from the
unauthorized response and from every store-failure response. -/
theorem c6_update_unknown_slug_not_found (store : List BlogPost)
    (auth password : Option String) (slug : String) (b : PutBody) (now : String)
    (hauth : isAuthorized auth password = true)
    (hnone : ∀ q ∈ store, q.slug ≠ slug) :
    blogSlugPUT store auth password slug (some b) now =
        (ApiResponse.err 404 "Post not found.", store) ∧
    (ApiResponse.err 404 "Post not found." : ApiResponse BlogPost) ≠
        ApiResponse.err 401 "Unauthorized" ∧
    (∀ msg, (ApiResponse.err 404 "Post not found." : ApiResponse BlogPost) ≠
        ApiResponse.err 500 msg) := by
  have hf : store.filter (fun q => q.slug == slug) = [] := by
    refine List.filter_eq_nil_iff.mpr (fun q hq hqpr => ?_)
    exact hnone q hq (by simpa using hqpr)
  refine ⟨by simp [blogSlugPUT, hauth, hf], by simp, fun msg => by simp⟩

/-- C6 witness: updating a slug absent from the one-draft store returns the
not-found error and no change. -/
theorem c6_update_unknown_slug_not_found_witness :
    blogSlugPUT [draftPost] (some "pw") (some "pw") "missing" (some publishNowBody)
        "2024-06-01T00:00:00.000Z" =
      (ApiResponse.err 404 "Post not found.", [draftPost]) :=
  (c6_update_unknown_slug_not_found [draftPost] (some "pw") (some "pw") "missing"
    publishNowBody "2024-06-01T00:00:00.000Z" (by decide) (by decide)).1

/-- C7: an authorized create whose body misses `title` or `slug` (absent or
empty string) answers the validation error and persists nothing. -/
theorem c7_create_requires_title_slug (store : List BlogPost)
    (auth password : Option String) (b : PostBody) (now : String) (genId : Nat)
    (hauth : isAuthorized auth password = true)
    (hmiss : b.title = none ∨ b.title = some "" ∨ b.slug = none ∨ b.slug = some "") :
    blogPOST store auth password (some b) now genId =
      (ApiResponse.err 400 "Title and slug are required.", store) := by
  have he : ("" : String).isEmpty = true := rfl
  rcases hmiss with h | h | h | h <;>
    simp [blogPOST, truthyStr, hauth, h, he]

/-- C7 witness: the spec's scenario of a create with a title but no slug is
rejected with the validation error and an unchanged store. -/
theorem c7_create_requires_title_slug_witness :
    blogPOST [] (some "pw") (some "pw") (some { title := some "X" })
        "2024-06-01T00:00:00.000Z" 7 =
      (ApiResponse.err 400 "Title and slug are required.", []) :=
  c7_create_requires_title_slug [] (some "pw") (some "pw") { title := some "X" }
    "2024-06-01T00:00:00.000Z" 7 (by decide) (Or.inr (Or.inr (Or.inl rfl)))

/-- C9: an authorized create with title, slug and content, followed by an
authorized get of that slug, returns a record with the supplied fields
unchanged, the generated id and timestamps, the defaulted author and
`published = false`. -/
theorem c9_create_then_get_roundtrip (store : List BlogPost)
    (auth password : Option String) (t s c now : String) (genId : Nat)
    (hauth : isAuthorized auth password = true)
    (ht : t ≠ "") (hs : s ≠ "")
    (hfresh : ∀ q ∈ store, q.slug ≠ s) :
    ∃ q : BlogPost,
      blogSlugGET (blogPOST store auth password
            (some { title := some t, slug := some s, content := some c }) now genId).2
          auth password s = ApiResponse.ok 200 q ∧
      q.title = t ∧ q.slug = s ∧ q.content = c ∧
      q.id = genId ∧ q.created_at = now ∧ q.updated_at = now ∧
      q.author = "Stalela" ∧ q.published = false := by
  have ht' : t.isEmpty = false := by
    rw [Bool.eq_false_iff]
    intro hc
    exact ht ((String.isEmpty_iff t).mp hc)
  have hs' : s.isEmpty = false := by
    rw [Bool.eq_false_iff]
    intro hc
    exact hs ((String.isEmpty_iff s).mp hc)
  have hpost : (blogPOST store auth password
      (some { title := some t, slug := some s, content := some c }) now genId).2 =
      store ++ [insertedPost t s c now genId] := by
    simp [blogPOST, truthyStr, hauth, ht', hs', orNull, fallbackIfFalsy, insertedPost]
  refine ⟨insertedPost t s c now genId, ?_, rfl, rfl, rfl, rfl, rfl, rfl, rfl, rfl⟩
  rw [hpost]
  have hfl : store.filter (fun p => p.slug == s) = [] := by
    refine List.filter_eq_nil_iff.mpr (fun q hq hqpr => ?_)
    exact hfresh q hq (by simpa using hqpr)
  simp only [blogSlugGET, hauth, if_true, List.filter_append, hfl, List.nil_append,
    List.filter_cons, List.filter_nil]
  rw [if_pos (by simp [insertedPost])]
  rfl

/-- C9 witness: creating "hello" in an empty store and fetching it back
returns the supplied fields with the generated and defaulted ones. -/
theorem c9_create_then_get_roundtrip_witness :
    ∃ q : BlogPost,
      blogSlugGET (blogPOST [] (some "pw") (some "pw")
            (some helloCreateBody) "2024-06-01T00:00:00.000Z" 7).2
          (some "pw") (some "pw") "hello" = ApiResponse.ok 200 q ∧
      q.title = "Hello" ∧ q.slug = "hello" ∧ q.content = "Body" ∧
      q.id = 7 ∧ q.created_at = "2024-06-01T00:00:00.000Z" ∧
      q.updated_at = "2024-06-01T00:00:00.000Z" ∧
      q.author = "Stalela" ∧ q.published = false :=
  c9_create_then_get_roundtrip [] (some "pw") (some "pw") "Hello" "hello" "Body"
    "2024-06-01T00:00:00.000Z" 7 (by decide) (by decide) (by decide) (by decide)

/-- C8: a lead body whose `email` is absent or not a string is rejected with
the email validation error and nothing stored; a body whose `source` is absent
or not a string is rejected with one of the two field validation errors and
nothing stored; an unparseable body is rejected with the generic invalid
request error, which differs from both field validation errors. -/
theorem c8_lead_validation (b : JsonObj) (leads : List JsonObj) (genId now : String) :
    ((∀ s, getField b "email" ≠ some (JsonVal.str s)) →
        leadsPOST (some b) leads genId now =
          (ApiResponse.err 400 "Email is required.", leads)) ∧
    ((∀ s, getField b "source" ≠ some (JsonVal.str s)) →
        leadsPOST (some b) leads genId now =
            (ApiResponse.err 400 "Email is required.", leads) ∨
        leadsPOST (some b) leads genId now =
            (ApiResponse.err 400 "Source is required.", leads)) ∧
    leadsPOST none leads genId now = (ApiResponse.err 400 "Invalid request.", leads) ∧
    (ApiResponse.err 400 "Invalid request." : ApiResponse (Option JsonVal)) ≠
        ApiResponse.err 400 "Email is required." ∧
    (ApiResponse.err 400 "Invalid request." : ApiResponse (Option JsonVal)) ≠
        ApiResponse.err 400 "Source is required." := by
  refine ⟨?_, ?_, rfl, by simp, by simp⟩
  · intro hm
    have hstr : isStringVal (getField b "email") = false := by
      cases hv : getField b "email" with
      | none => rfl
      | some v =>
        cases v with
        | str s => exact absurd hv (hm s)
        | num n => rfl
        | bool bb => rfl
        | null => rfl
    simp [leadsPOST, hstr]
  · intro hm
    cases hem : (!truthy (getField b "email") || !isStringVal (getField b "email")) with
    | true => exact Or.inl (by simp [leadsPOST, hem])
    | false =>
      refine Or.inr ?_
      have hstr : isStringVal (getField b "source") = false := by
        cases hv : getField b "source" with
        | none => rfl
        | some v =>
          cases v with
          | str s => exact absurd hv (hm s)
          | num n => rfl
          | bool bb => rfl
          | null => rfl
      simp [leadsPOST, hem, hstr]

/-- C8 witness: the spec's scenario of a lead with a source and no email is
rejected with the email validation error and nothing stored. -/
theorem c8_lead_validation_witness :
    leadsPOST (some [("source", JsonVal.str "newsletter")]) [] "uuid-1"
        "2024-06-01T00:00:00.000Z" =
      (ApiResponse.err 400 "Email is required.", []) :=
  (c8_lead_validation [("source", JsonVal.str "newsletter")] [] "uuid-1"
    "2024-06-01T00:00:00.000Z").1 (fun s h => by
      have he : getField [("source", JsonVal.str "newsletter")] "email" = none := by
        decide
      rw [he] at h
      exact Option.noConfusion h)

/-- C3: evaluated at a lead submission with valid `email` and `source` that
also carries an `id` field equal to a previously issued id, the handler
answers success with the caller-supplied id, not the freshly generated UUID:
the spread of the body after the generated `id` lets callers override it. -/
theorem c3_caller_overrides_generated_id :
    (leadsPOST (some leadBodyWithId) priorLeads "generated-uuid-1234"
        "2024-06-01T00:00:00.000Z").1 =
      ApiResponse.ok 201 (some (JsonVal.str "lead-1")) ∧
    some (JsonVal.str "lead-1") ≠ some (JsonVal.str "generated-uuid-1234") ∧
    (∃ l ∈ priorLeads, getField l "id" = some (JsonVal.str "lead-1")) := by
  decide

end NewSite
